import Mathlib

/-!
Shallow embedding of the game-logic core of `Videojuego.py` (a single-file
pygame RPG): the entity model (`Personaje`, `Jugador`, `Enemigo`), the
item model (`Objeto`), the turn-based combat state (`CombateState`) and the
exploration enemy-roster tick (`JugandoState.update`'s enemy loop).

Python machine reals (positions, timers) are modelled as rationals; all the
concrete inputs used in witnesses and counterexamples are dyadic, where
float arithmetic is exact.  Python `int` is modelled as `Int`, `//` as
`Int.fdiv` (floor division).  The pseudo-random draws (critical hit,
wander re-targeting) are passed in as explicit parameters, as the design
notes of the repository themselves suggest (injected generator).
-/

namespace Videojuego

/-- Python `int(x)` on a real: truncation toward zero. -/
def pyInt (q : ℚ) : Int :=
  if 0 ≤ q then q.floor else -((-q).floor)

/-- A pygame rectangle: position and size in integer pixels. -/
structure Rect where
  x : Int
  y : Int
  w : Int
  h : Int
deriving DecidableEq, Repr

/-- pygame `Rect.colliderect`: strict overlap on both axes (rectangles that
merely touch along an edge do not collide). -/
def colliderect (a b : Rect) : Bool :=
  decide (a.x < b.x + b.w) && decide (a.x + a.w > b.x) &&
  decide (a.y < b.y + b.h) && decide (a.y + a.h > b.y)

/-- State of `Personaje` (the abstract character base class): the stat,
position and liveness fields.  Presentation-only fields that no claim
touches (sprite, velocity, animation timer) are omitted; `hit_flash_timer`
is kept because `recibir_dano` writes it. -/
structure Personaje where
  nombre : String
  hp : Int
  hp_max : Int
  atk : Int
  defensa : Int
  nivel : Int
  experiencia : Int
  x : ℚ
  y : ℚ
  rectX : Int
  rectY : Int
  vivo : Bool
  hit_flash_timer : ℚ
deriving DecidableEq, Repr

/-- `Personaje.__init__`: full hp, level 1, no experience, alive, with the
50×50 rect anchored at the integer spawn position. -/
def mkPersonaje (nombre : String) (hp atk defensa : Int) (x y : Int) : Personaje where
  nombre := nombre
  hp := hp
  hp_max := hp
  atk := atk
  defensa := defensa
  nivel := 1
  experiencia := 0
  x := (x : ℚ)
  y := (y : ℚ)
  rectX := x
  rectY := y
  vivo := true
  hit_flash_timer := 0

/-- The character's 50×50 bounding box, read from the rect fields. -/
def Personaje.rect (p : Personaje) : Rect :=
  ⟨p.rectX, p.rectY, 50, 50⟩

/-- `Personaje.recibir_dano`: realized damage is `max(1, dano - defensa // 2)`
(Python floor division), hp is clamped at 0, the hit flash is restarted, and
when hp reaches 0 while the character was alive it dies and `morir` fires.
Returns (new state, realized damage, whether `morir` was emitted). -/
def recibir_dano (p : Personaje) (dano : Int) : Personaje × Int × Bool :=
  let dano_real := max 1 (dano - p.defensa.fdiv 2)
  let hp2 := max 0 (p.hp - dano_real)
  let muere := (hp2 == 0) && p.vivo
  ({ p with hp := hp2
            hit_flash_timer := (1 : ℚ) / 5
            vivo := p.vivo && !(hp2 == 0) },
   dano_real, muere)

/-- `Personaje.curarse`: restore hp, clamped at `hp_max`. -/
def curarse (p : Personaje) (cantidad : Int) : Personaje :=
  { p with hp := min p.hp_max (p.hp + cantidad) }

/-- `Personaje.update`: run down the hit flash and sync the rect to the
(truncated) continuous position. -/
def Personaje.update (dt : ℚ) (p : Personaje) : Personaje :=
  let p := if 0 < p.hit_flash_timer
           then { p with hit_flash_timer := p.hit_flash_timer - dt }
           else p
  { p with rectX := pyInt p.x, rectY := pyInt p.y }

/-- An inventory item (`Objeto`): name, description, category string
(`"consumible"`, `"arma"`, `"armadura"`), shop value and effect modifier. -/
structure Objeto where
  nombre : String
  descripcion : String
  tipo : String
  valor : Int
  modificador : Int
deriving DecidableEq, Repr

/-- Python `str.lower` restricted to the alphabet the game's item names use:
ASCII letters plus the Spanish accented capitals. -/
def pyLower (c : Char) : Char :=
  if c = 'Á' then 'á'
  else if c = 'É' then 'é'
  else if c = 'Í' then 'í'
  else if c = 'Ó' then 'ó'
  else if c = 'Ú' then 'ú'
  else if c = 'Ñ' then 'ñ'
  else c.toLower

/-- Substring containment on character lists (Python's `in` on strings). -/
def containsSub (pat : List Char) : List Char → Bool
  | [] => pat.isEmpty
  | c :: rest => pat.isPrefixOf (c :: rest) || containsSub pat rest

/-- Python `pat in s` for strings. -/
def pyIn (pat s : String) : Bool :=
  containsSub pat.data s.data

/-- Python `s.lower()` under the `pyLower` character model. -/
def lowerStr (s : String) : String :=
  String.mk (s.data.map pyLower)

/-- The healing-marker test `Objeto.usar` performs on the lowercased name:
it contains `"vida"` or `"poción"`. -/
def marcaCurativa (nombre : String) : Bool :=
  pyIn "vida" (lowerStr nombre) || pyIn "poción" (lowerStr nombre)

/-- `Objeto.usar`: only a consumable whose lowercased name contains a healing
marker heals the target by the item's modifier and reports `True`; every
other item leaves the target alone and reports `False`. -/
def Objeto.usar (o : Objeto) (p : Personaje) : Personaje × Bool :=
  if o.tipo = "consumible" then
    if marcaCurativa o.nombre then (curarse p o.modificador, true)
    else (p, false)
  else (p, false)

/-- Player state (`Jugador`): a `Personaje` plus class, gold and inventory. -/
structure Jugador extends Personaje where
  clase : String
  oro : Int
  inventario : List Objeto
deriving DecidableEq, Repr

/-- The `Jugador.CLASES` table: base (hp, atk, defensa) per class name. -/
def CLASES (clase : String) : Option (Int × Int × Int) :=
  if clase = "Guerrero" then some (120, 15, 10)
  else if clase = "Mago" then some (80, 20, 5)
  else if clase = "Arquero" then some (100, 18, 7)
  else none

/-- `Jugador.__init__`: stats looked up in `CLASES`, 100 gold, empty
inventory (`None` when the class name is unknown, where Python raises). -/
def mkJugador (nombre clase : String) (x y : Int) : Option Jugador :=
  match CLASES clase with
  | none => none
  | some (hp, atk, defensa) =>
      some { toPersonaje := mkPersonaje nombre hp atk defensa x y
             clase := clase
             oro := 100
             inventario := [] }

/-- `Jugador.atacar` with the critical draw (`random.random() < 0.1`) made
explicit: base damage is `atk`, doubled on a critical, then dealt through
the defender's `recibir_dano`. -/
def Jugador.atacar (j : Jugador) (critico : Bool) (objetivo : Personaje) :
    Personaje × Int × Bool :=
  recibir_dano objetivo (if critico then j.atk * 2 else j.atk)

/-- `Jugador.subir_nivel`: +1 level, +10 max hp, full heal to the new max,
+2 attack, +1 defense. -/
def subir_nivel (j : Jugador) : Jugador :=
  { j with nivel := j.nivel + 1
           hp_max := j.hp_max + 10
           hp := j.hp_max + 10
           atk := j.atk + 2
           defensa := j.defensa + 1 }

/-- An enemy's reward descriptor. -/
structure Recompensa where
  oro : Int
  experiencia : Int
deriving DecidableEq, Repr

/-- Enemy state (`Enemigo`): a `Personaje` plus type tag, reward and the
wander-AI fields. -/
structure Enemigo extends Personaje where
  tipo : String
  recompensa : Recompensa
  wander_timer : ℚ
  wander_direction : ℚ × ℚ
deriving DecidableEq, Repr

/-- `Enemigo.__init__`: base character plus reward; the wander timer starts
at 0 with a null direction. -/
def mkEnemigo (nombre : String) (hp atk defensa : Int) (tipo : String)
    (recompensa : Recompensa) (x y : Int) : Enemigo where
  toPersonaje := mkPersonaje nombre hp atk defensa x y
  tipo := tipo
  recompensa := recompensa
  wander_timer := 0
  wander_direction := (0, 0)

/-- `Enemigo.atacar`, the same shape as the player's attack. -/
def Enemigo.atacar (e : Enemigo) (critico : Bool) (objetivo : Personaje) :
    Personaje × Int × Bool :=
  recibir_dano objetivo (if critico then e.atk * 2 else e.atk)

/-- `Enemigo.soltar_recompensa`: add the reward's experience and gold to the
player. -/
def soltar_recompensa (e : Enemigo) (j : Jugador) : Jugador :=
  { j with experiencia := j.experiencia + e.recompensa.experiencia
           oro := j.oro + e.recompensa.oro }

/-- The results of the two pseudo-random draws `Enemigo.update` can make
when its wander timer runs out: `random.uniform(1, 3)` and the unit vector
of a random angle. -/
structure WanderDraw where
  timer : ℚ
  dir : ℚ × ℚ
deriving DecidableEq, Repr

/-- `Enemigo.update`: base character update first, nothing further when
dead; otherwise the wander timer is run down (re-drawn together with a new
direction when it hits 0) and the enemy moves at speed 50 along the current
direction.  Note that the rect was synced before the move, so it trails the
continuous position by one tick. -/
def Enemigo.update (dt : ℚ) (draw : WanderDraw) (e : Enemigo) : Enemigo :=
  let e := { e with toPersonaje := Personaje.update dt e.toPersonaje }
  if e.vivo then
    let t := e.wander_timer - dt
    let td := if t ≤ 0 then (draw.timer, draw.dir) else (t, e.wander_direction)
    { e with wander_timer := td.1
             wander_direction := td.2
             x := e.x + td.2.1 * 50 * dt
             y := e.y + td.2.2 * 50 * dt }
  else e

/-- The combat-relevant state of `CombateState`: the two combatants, whose
turn it is, whether the 0.5-unit animation delay is running (`animando`,
with `timer_active` mirroring `animation_timer.active`), the status message
and the end-of-combat result (`"victoria"` / `"derrota"`, as the code
stores it). -/
structure CombateState where
  jugador : Jugador
  enemigo : Enemigo
  turno_jugador : Bool
  animando : Bool
  timer_active : Bool
  mensaje : String
  resultado : Option String
deriving DecidableEq, Repr

/-- The first consumable of the inventory in insertion order — the item the
`for obj in inventario` loop of the use-item handler settles on. -/
def primerConsumible : List Objeto → Option Objeto
  | [] => none
  | o :: rest => if o.tipo = "consumible" then some o else primerConsumible rest

/-- Python `list.remove`: drop the first occurrence of the given element. -/
def pyRemove (a : Objeto) : List Objeto → List Objeto
  | [] => []
  | o :: rest => if o = a then rest else o :: pyRemove a rest

/-- Drop the first consumable of the inventory, keeping everything else. -/
def quitarPrimerConsumible : List Objeto → List Objeto
  | [] => []
  | o :: rest => if o.tipo = "consumible" then rest else o :: quitarPrimerConsumible rest

/-- The use-item branch of `CombateState.handle_event` (reached while it is
the player's turn, no animation is running and combat is undecided): with a
non-empty inventory the loop uses and removes the first consumable, reports
it and starts the animation delay (doing nothing at all when no consumable
exists); with an empty inventory it only posts the no-items message. -/
def combate_usar_objeto (st : CombateState) : CombateState :=
  if st.jugador.inventario.isEmpty then
    { st with mensaje := "¡No tienes objetos!" }
  else
    match primerConsumible st.jugador.inventario with
    | none => st
    | some obj =>
        { st with
            jugador := { st.jugador with
                           toPersonaje := (obj.usar st.jugador.toPersonaje).1
                           inventario := pyRemove obj st.jugador.inventario }
            mensaje := "Usas " ++ obj.nombre ++ ". HP +" ++ toString obj.modificador
            animando := true
            timer_active := true }

/-- The victory bookkeeping of `CombateState.update`: grant the defeated
enemy's reward, then — once, not in a loop — level the player up and zero
the experience counter if the accumulated experience reaches
`nivel * 100`. -/
def aplicarVictoria (j : Jugador) (e : Enemigo) : Jugador :=
  let j := soltar_recompensa e j
  if j.experiencia ≥ j.nivel * 100 then { subir_nivel j with experiencia := 0 }
  else j

/-- `CombateState._turno_enemigo`: the enemy attacks the player, the message
reports the realized damage, and the animation delay restarts. -/
def turno_enemigo (critico : Bool) (st : CombateState) : CombateState :=
  let r := st.enemigo.atacar critico st.jugador.toPersonaje
  { st with
      jugador := { st.jugador with toPersonaje := r.1 }
      mensaje := st.enemigo.nombre ++ " ataca causando " ++ toString r.2.1 ++ " de daño!"
      animando := true
      timer_active := true }

/-- The body of `CombateState.update` that runs when the animation delay
expires: the delay is cleared, then — in the code's order — a dead player
means defeat, else a dead enemy means victory (with reward and possible
level-up), else after the player's turn the enemy takes its turn, else the
turn returns to the player. -/
def resolverTurno (critico : Bool) (st : CombateState) : CombateState :=
  let st := { st with animando := false, timer_active := false }
  if !st.jugador.vivo then
    { st with resultado := some "derrota" }
  else if !st.enemigo.vivo then
    { st with resultado := some "victoria"
              jugador := aplicarVictoria st.jugador st.enemigo }
  else if st.turno_jugador && st.enemigo.vivo then
    turno_enemigo critico { st with turno_jugador := false }
  else
    { st with turno_jugador := true }

/-- Modelled from the spec's words for the claimed priority order of the
delay-expiry resolver (victory checked before defeat, then the enemy turn
when it was the player's turn and both combatants are alive, else back to
the player's turn); used only to compare the code's resolver against the
claim. -/
def resolverTurnoOrdenSpec (critico : Bool) (st : CombateState) : CombateState :=
  let st := { st with animando := false, timer_active := false }
  if !st.enemigo.vivo then
    { st with resultado := some "victoria"
              jugador := aplicarVictoria st.jugador st.enemigo }
  else if !st.jugador.vivo then
    { st with resultado := some "derrota" }
  else if st.turno_jugador && st.jugador.vivo && st.enemigo.vivo then
    turno_enemigo critico { st with turno_jugador := false }
  else
    { st with turno_jugador := true }

/-- The enemy loop of `JugandoState.update`: iterate the roster in order,
dropping dead enemies, updating live ones, and on the first live enemy whose
(updated) rect overlaps the player's rect, making it the current enemy and
transitioning to combat — returning immediately, so the rest of that tick's
roster is neither updated nor cleaned.  Returns the roster as the tick
leaves it, and the encountered enemy if combat was triggered. -/
def updateEnemigos (dt : ℚ) (draw : WanderDraw) (jugadorRect : Rect) :
    List Enemigo → List Enemigo × Option Enemigo
  | [] => ([], none)
  | e :: rest =>
    if e.vivo then
      let e2 := Enemigo.update dt draw e
      if colliderect jugadorRect (Personaje.rect e2.toPersonaje) then
        (e2 :: rest, some e2)
      else
        let r := updateEnemigos dt draw jugadorRect rest
        (e2 :: r.1, r.2)
    else updateEnemigos dt draw jugadorRect rest

/-- A step of the entity lifecycle the temporal claims quantify over:
taking damage or being healed. -/
inductive Accion where
  | dano (d : Int)
  | cura (c : Int)
deriving DecidableEq, Repr

/-- One lifecycle step, returning the new state and whether the death
signal `morir` fired during it. -/
def paso (a : Accion) (p : Personaje) : Personaje × Bool :=
  match a with
  | .dano d => let r := recibir_dano p d; (r.1, r.2.2)
  | .cura c => (curarse p c, false)

/-- Run a sequence of lifecycle steps. -/
def ejecutar : List Accion → Personaje → Personaje
  | [], p => p
  | a :: rest, p => ejecutar rest (paso a p).1

/-- Count the `morir` emissions along a sequence of lifecycle steps. -/
def contarMorir : List Accion → Personaje → Nat
  | [], _ => 0
  | a :: rest, p =>
      let r := paso a p
      (if r.2 then 1 else 0) + contarMorir rest r.1

/-- The entity invariant of the data model: hp between 0 and `hp_max`, and
the alive flag tracking hp positivity. -/
def Inv (p : Personaje) : Prop :=
  0 ≤ p.hp ∧ p.hp ≤ p.hp_max ∧ (p.vivo = true ↔ 0 < p.hp)

instance (p : Personaje) : Decidable (Inv p) := by
  unfold Inv; infer_instance

/-! Concrete fixtures: the warrior player of the character-creation table,
the two enemy templates of `JugandoState._generar_enemigos`, and the items
of the game (the starting potion) plus category variations. -/

/-- A freshly created warrior player (`Jugador.CLASES["Guerrero"]`). -/
def guerrero : Jugador where
  toPersonaje := mkPersonaje "Heroe" 120 15 10 0 0
  clase := "Guerrero"
  oro := 100
  inventario := []

/-- The wolf template of `_generar_enemigos`. -/
def lobo : Enemigo := mkEnemigo "Lobo Salvaje" 40 10 2 "bestia" ⟨20, 50⟩ 0 0

/-- The bandit template of `_generar_enemigos`. -/
def bandido : Enemigo := mkEnemigo "Bandido" 60 15 5 "humano" ⟨40, 80⟩ 0 0

/-- The starting potion handed out at character creation. -/
def pocionVida : Objeto :=
  ⟨"Poción de Vida", "Restaura 20 HP", "consumible", 50, 20⟩

/-- A non-consumable item (weapon category). -/
def espada : Objeto := ⟨"Espada", "Un arma", "arma", 80, 5⟩

/-- A consumable whose name carries no healing marker. -/
def elixirObj : Objeto := ⟨"Elixir", "Consumible sin marca", "consumible", 10, 30⟩

/-- The dead wolf: 0 hp, alive flag off — a state satisfying the entity
invariant. -/
def loboMuertoP : Personaje := { lobo.toPersonaje with hp := 0, vivo := false }

/-- A combat snapshot at the start of the player's turn. -/
def estadoCombate (j : Jugador) (e : Enemigo) : CombateState where
  jugador := j
  enemigo := e
  turno_jugador := true
  animando := false
  timer_active := false
  mensaje := ""
  resultado := none

/-- A player-turn combat state whose inventory holds a weapon only — it is
non-empty but contains zero consumables. -/
def estadoSinConsumibles : CombateState :=
  estadoCombate { guerrero with inventario := [espada] } lobo

/-- A player-turn combat state with an empty inventory. -/
def estadoInventarioVacio : CombateState := estadoCombate guerrero lobo

/-- The warrior after death: hp 0, alive flag off. -/
def guerreroMuerto : Jugador := { guerrero with hp := 0, vivo := false }

/-- The wolf after death: hp 0, alive flag off. -/
def loboMuerto : Enemigo := { lobo with hp := 0, vivo := false }

/-- The (unreachable in normal play) expiry state where both combatants are
dead, mid-animation. -/
def estadoAmbosMuertos : CombateState :=
  { estadoCombate guerreroMuerto loboMuerto with animando := true, timer_active := true }

/-- The wander draw used in the exploration fixtures: next timer 2, heading
along the positive x axis. -/
def drawC9 : WanderDraw := ⟨2, (1, 0)⟩

/-- The player's 50×50 rect at the origin. -/
def rectJugador : Rect := ⟨0, 0, 50, 50⟩

/-- A live wolf far from the player, mid-wander (timer 5, null heading). -/
def loboLejano : Enemigo :=
  { mkEnemigo "Lobo Salvaje" 40 10 2 "bestia" ⟨20, 50⟩ 1000 1000 with wander_timer := 5 }

/-- A live bandit overlapping the player. -/
def bandidoCercano : Enemigo := mkEnemigo "Bandido" 60 15 5 "humano" ⟨40, 80⟩ 10 10

/-- A player-turn combat state whose inventory is a weapon followed by an
unmarked consumable. -/
def estadoConElixir : CombateState :=
  estadoCombate { guerrero with inventario := [espada, elixirObj] } lobo

/-- The far wolf after one tick with `drawC9`: only its wander timer ran
down (5 to 4); heading was still (0,0) so it did not move. -/
def loboLejanoTick : Enemigo := { loboLejano with wander_timer := 4 }

/-- The near bandit after one tick with `drawC9`: its timer expired, so it
re-drew (timer 2, heading (1,0)) and moved 50 along x; its rect was synced
before the move, so it still reads (10,10). -/
def bandidoCercanoTick : Enemigo :=
  { bandidoCercano with wander_timer := 2, wander_direction := (1, 0), x := 60 }

/-- The warrior fixture is exactly what `mkJugador` builds. -/
theorem guerrero_def : mkJugador "Heroe" "Guerrero" 0 0 = some guerrero := rfl

/-- Claim C1 — `recibir_dano` returns `max(1, d - defensa // 2)` with floor
division and clamps the resulting hp at `max(0, hp_before - realized)`. -/
theorem C1_recibir_dano (p : Personaje) (d : Int) :
    (recibir_dano p d).2.1 = max 1 (d - p.defensa.fdiv 2) ∧
    (recibir_dano p d).1.hp = max 0 (p.hp - (recibir_dano p d).2.1) :=
  ⟨rfl, rfl⟩

/-- Claim C2 — an attack takes the attacker's base atk, doubles it exactly
when the critical draw fires, then subtracts `defensa // 2` and floors the
result at 1; in particular a warrior (atk 15) hitting the wolf template
(defensa 2, hp 40) without a critical deals 14 and leaves it at 26 hp. -/
theorem C2_atacar_orden :
    (∀ (j : Jugador) (o : Personaje) (critico : Bool),
      (j.atacar critico o).2.1 =
        max 1 ((if critico then j.atk * 2 else j.atk) - o.defensa.fdiv 2) ∧
      (j.atacar critico o).1.hp = max 0 (o.hp - (j.atacar critico o).2.1)) ∧
    (guerrero.atacar false lobo.toPersonaje).2.1 = 14 ∧
    (guerrero.atacar false lobo.toPersonaje).1.hp = 26 :=
  ⟨fun _ _ _ => ⟨rfl, rfl⟩, by decide, by decide⟩

/-- Helper: an item whose use did not apply leaves the target untouched. -/
theorem usar_no_aplica {o : Objeto} {p : Personaje}
    (h : (Objeto.usar o p).2 = false) : (Objeto.usar o p).1 = p := by
  by_cases h1 : o.tipo = "consumible" <;>
    by_cases h2 : marcaCurativa o.nombre <;>
      simp_all [Objeto.usar]

/-- Claim C6 — `usar` applies (returning `True`) exactly for consumables
whose name carries a healing marker under Python lowercasing, in which case
the target is healed by the item's modifier; in every other case the target
is returned untouched. -/
theorem C6_usar_objeto (o : Objeto) (p : Personaje) :
    ((o.usar p).2 = true ↔ (o.tipo = "consumible" ∧ marcaCurativa o.nombre = true)) ∧
    (o.usar p).1 = (if (o.usar p).2 then curarse p o.modificador else p) := by
  by_cases h1 : o.tipo = "consumible" <;>
    by_cases h2 : marcaCurativa o.nombre <;>
      simp [Objeto.usar, h1, h2]

/-- Witness for C6: the starting potion is a marked consumable, so using it
applies and heals by 20. -/
theorem C6_usar_objeto_witness :
    (pocionVida.usar lobo.toPersonaje).2 = true ∧
    (pocionVida.usar lobo.toPersonaje).1 = curarse lobo.toPersonaje 20 := by
  have h := C6_usar_objeto pocionVida lobo.toPersonaje
  have h2 : (pocionVida.usar lobo.toPersonaje).2 = true :=
    h.1.mpr ⟨rfl, by decide⟩
  refine ⟨h2, ?_⟩
  rw [h.2, h2]
  rfl

/-- Claim C5 — on victory the reward is added first, then at most one
level-up fires, exactly when the accumulated experience reaches
`nivel * 100`, applying +1 level, +10 max hp, a full heal, +2 atk, +1
defense and an experience reset to 0; the level-1 warrior with 100
experience beating the wolf (50 exp, 20 gold) ends at level 2 with
130/130 hp, 0 experience and 120 gold. -/
theorem C5_victoria_nivel :
    (∀ (j : Jugador) (e : Enemigo),
      aplicarVictoria j e =
        (if j.experiencia + e.recompensa.experiencia ≥ j.nivel * 100 then
          { j with nivel := j.nivel + 1
                   hp_max := j.hp_max + 10
                   hp := j.hp_max + 10
                   atk := j.atk + 2
                   defensa := j.defensa + 1
                   experiencia := 0
                   oro := j.oro + e.recompensa.oro }
        else
          { j with experiencia := j.experiencia + e.recompensa.experiencia
                   oro := j.oro + e.recompensa.oro }) ∧
      (aplicarVictoria j e).nivel =
        j.nivel + (if j.experiencia + e.recompensa.experiencia ≥ j.nivel * 100
                   then 1 else 0)) ∧
    aplicarVictoria { guerrero with experiencia := 100 } lobo =
      { guerrero with nivel := 2, hp_max := 130, hp := 130, atk := 17,
                      defensa := 11, experiencia := 0, oro := 120 } := by
  refine ⟨fun j e => ?_, by decide⟩
  have key : aplicarVictoria j e =
      (if j.experiencia + e.recompensa.experiencia ≥ j.nivel * 100 then
        { j with nivel := j.nivel + 1
                 hp_max := j.hp_max + 10
                 hp := j.hp_max + 10
                 atk := j.atk + 2
                 defensa := j.defensa + 1
                 experiencia := 0
                 oro := j.oro + e.recompensa.oro }
      else
        { j with experiencia := j.experiencia + e.recompensa.experiencia
                 oro := j.oro + e.recompensa.oro }) := by
    by_cases h : j.experiencia + e.recompensa.experiencia ≥ j.nivel * 100 <;>
      simp [aplicarVictoria, soltar_recompensa, subir_nivel, h]
  refine ⟨key, ?_⟩
  rw [key]
  split <;> simp

/-- Helper: no lifecycle step revives — if the character is alive after a
step, it was alive before it. -/
theorem paso_vivo_mono (a : Accion) (p : Personaje)
    (h : (paso a p).1.vivo = true) : p.vivo = true := by
  cases a with
  | dano d =>
      have : (p.vivo && !(max 0 (p.hp - max 1 (d - p.defensa.fdiv 2)) == 0)) = true := h
      exact (Bool.and_eq_true _ _).mp this |>.1
  | cura c => exact h

/-- Helper: liveness is monotone along any sequence of lifecycle steps. -/
theorem ejecutar_vivo_mono (tr : List Accion) (p : Personaje)
    (h : (ejecutar tr p).vivo = true) : p.vivo = true := by
  induction tr generalizing p with
  | nil => exact h
  | cons a rest ih => exact paso_vivo_mono a p (ih (paso a p).1 h)

/-- Helper: a step emits the death signal exactly when it flips the alive
flag from true to false. -/
theorem paso_emite_eq (a : Accion) (p : Personaje) :
    (paso a p).2 = (p.vivo && !(paso a p).1.vivo) := by
  cases a with
  | dano d =>
      show ((max 0 (p.hp - max 1 (d - p.defensa.fdiv 2)) == 0) && p.vivo)
         = (p.vivo && !(p.vivo && !(max 0 (p.hp - max 1 (d - p.defensa.fdiv 2)) == 0)))
      cases hv : p.vivo <;>
        cases hz : (max 0 (p.hp - max 1 (d - p.defensa.fdiv 2)) == 0) <;> rfl
  | cura c =>
      show false = (p.vivo && !p.vivo)
      cases hv : p.vivo <;> rfl

/-- Claim C3 — along any sequence of `recibir_dano` / `curarse` steps the
alive flag never returns to true once false, and `morir` is emitted exactly
once per lifetime: its count over a run is 1 precisely when the run starts
alive and ends dead, and the emitting step is a damage step that leaves hp
at 0 on a previously alive character (so a later `recibir_dano` on the dead
character emits nothing). -/
theorem C3_morir_una_vez (p : Personaje) (tr : List Accion) :
    ((ejecutar tr p).vivo = true → p.vivo = true) ∧
    contarMorir tr p =
      (if p.vivo = true ∧ (ejecutar tr p).vivo = false then 1 else 0) ∧
    (∀ (a : Accion) (q : Personaje), (paso a q).2 = true →
      (paso a q).1.hp = 0 ∧ q.vivo = true ∧ (paso a q).1.vivo = false) := by
  refine ⟨ejecutar_vivo_mono tr p, ?_, ?_⟩
  · induction tr generalizing p with
    | nil =>
        cases hv : p.vivo <;> simp [contarMorir, ejecutar, hv]
    | cons a rest ih =>
        have he := paso_emite_eq a p
        show (if (paso a p).2 then 1 else 0) + contarMorir rest (paso a p).1 =
          if p.vivo = true ∧ (ejecutar rest (paso a p).1).vivo = false then 1 else 0
        rw [ih (paso a p).1]
        cases hv : p.vivo <;> cases hv2 : (paso a p).1.vivo
        · rw [hv, hv2] at he
          simp [he, hv, hv2]
        · exact absurd (paso_vivo_mono a p hv2) (by rw [hv]; exact Bool.false_ne_true)
        · rw [hv, hv2] at he
          have hfin : (ejecutar rest (paso a p).1).vivo = false := by
            cases hf : (ejecutar rest (paso a p).1).vivo
            · rfl
            · exact absurd (ejecutar_vivo_mono rest (paso a p).1 hf)
                (by rw [hv2]; exact Bool.false_ne_true)
          simp [he, hv, hv2, hfin]
        · rw [hv, hv2] at he
          simp [he, hv, hv2]
  · intro a q h
    cases a with
    | dano d =>
        have hz : (max 0 (q.hp - max 1 (d - q.defensa.fdiv 2)) == 0) = true :=
          ((Bool.and_eq_true _ _).mp h).1
        have hv : q.vivo = true := ((Bool.and_eq_true _ _).mp h).2
        refine ⟨?_, hv, ?_⟩
        · show max 0 (q.hp - max 1 (d - q.defensa.fdiv 2)) = 0
          exact beq_iff_eq.mp hz
        show (q.vivo && !(max 0 (q.hp - max 1 (d - q.defensa.fdiv 2)) == 0)) = false
        rw [hz, hv]
        rfl
    | cura c => exact absurd h (by simp [paso])

/-- Witness for C3: the wolf starts alive; over a damage-heal-damage run
that kills it at the first step (and re-zeroes its hp at the third) the
death signal fires exactly once. -/
theorem C3_morir_una_vez_witness :
    lobo.toPersonaje.vivo = true ∧
    contarMorir [Accion.dano 100, Accion.cura 50, Accion.dano 100]
      lobo.toPersonaje = 1 := by
  constructor
  · exact (C3_morir_una_vez lobo.toPersonaje []).1 (by decide)
  · have h := (C3_morir_una_vez lobo.toPersonaje
      [Accion.dano 100, Accion.cura 50, Accion.dano 100]).2.1
    rw [h]
    decide

/-- Counterexample to C4 as stated: the dead wolf satisfies the invariant,
but healing it by 50 restores positive hp while leaving the alive flag
false, so `curarse` does not preserve `alive == (hp > 0)`. -/
theorem C4_contraejemplo :
    Inv loboMuertoP ∧ ¬ Inv (curarse loboMuertoP 50) := by
  constructor <;> decide

/-- Claim C4 as amended — `recibir_dano` always preserves the entity
invariant; `curarse` (with a nonnegative amount) and `subir_nivel` preserve
it when the entity is alive, and `curarse` preserves the hp bounds
unconditionally; on a dead entity a positive heal or a level-up restores
positive hp while the alive flag stays false. -/
theorem C4_invariante (p : Personaje) (j : Jugador) (d c : Int) :
    (Inv p → Inv (recibir_dano p d).1) ∧
    (Inv p → 0 ≤ c → p.vivo = true → Inv (curarse p c)) ∧
    (Inv p → 0 ≤ c → 0 ≤ (curarse p c).hp ∧ (curarse p c).hp ≤ (curarse p c).hp_max) ∧
    (Inv j.toPersonaje → j.vivo = true → Inv (subir_nivel j).toPersonaje) := by
  refine ⟨?_, ?_, ?_, ?_⟩
  · rintro ⟨h1, h2, h3⟩
    refine ⟨?_, ?_, ?_⟩
    · show (0 : Int) ≤ max 0 (p.hp - max 1 (d - p.defensa.fdiv 2))
      omega
    · show max 0 (p.hp - max 1 (d - p.defensa.fdiv 2)) ≤ p.hp_max
      omega
    · show (p.vivo && !(max 0 (p.hp - max 1 (d - p.defensa.fdiv 2)) == 0)) = true ↔
        0 < max 0 (p.hp - max 1 (d - p.defensa.fdiv 2))
      cases hv : p.vivo
      · rw [hv] at h3
        have hp0 : p.hp = 0 := by
          by_contra hne
          have hpos : 0 < p.hp := lt_of_le_of_ne h1 (Ne.symm hne)
          exact Bool.false_ne_true (h3.mpr hpos)
        simp only [Bool.false_and, Bool.false_eq_true, false_iff]
        omega
      · rw [hv] at h3
        have hppos : 0 < p.hp := h3.mp rfl
        simp only [Bool.true_and, Bool.not_eq_true', beq_eq_false_iff_ne, ne_eq]
        omega
  · rintro ⟨h1, h2, h3⟩ hc hv
    rw [hv] at h3
    have hppos : 0 < p.hp := h3.mp rfl
    refine ⟨?_, ?_, ?_⟩
    · show (0 : Int) ≤ min p.hp_max (p.hp + c)
      omega
    · show min p.hp_max (p.hp + c) ≤ p.hp_max
      omega
    · show p.vivo = true ↔ 0 < min p.hp_max (p.hp + c)
      rw [hv]
      constructor
      · intro _
        omega
      · intro _
        rfl
  · rintro ⟨h1, h2, h3⟩ hc
    constructor
    · show (0 : Int) ≤ min p.hp_max (p.hp + c)
      omega
    · show min p.hp_max (p.hp + c) ≤ p.hp_max
      omega
  · rintro ⟨h1, h2, h3⟩ hv
    refine ⟨?_, ?_, ?_⟩
    · show (0 : Int) ≤ j.hp_max + 10
      omega
    · show j.hp_max + 10 ≤ j.hp_max + 10
      omega
    · show j.vivo = true ↔ 0 < j.hp_max + 10
      rw [hv]
      constructor
      · intro _
        omega
      · intro _
        rfl

/-- Witness for C4 (amended): the invariant survives damaging the live wolf
by 3, healing it by 5, and leveling the live warrior up. -/
theorem C4_invariante_witness :
    Inv (recibir_dano lobo.toPersonaje 3).1 ∧
    Inv (curarse lobo.toPersonaje 5) ∧
    Inv (subir_nivel guerrero).toPersonaje := by
  have h := C4_invariante lobo.toPersonaje guerrero 3 5
  exact ⟨h.1 (by decide), h.2.1 (by decide) (by decide) (by decide),
    h.2.2.2 (by decide) (by decide)⟩

/-- Counterexample to C7 as stated: with an inventory holding only a weapon
(zero consumables), selecting Use-Item posts no message at all — the
no-items message appears only for an empty inventory. -/
theorem C7_contraejemplo :
    primerConsumible estadoSinConsumibles.jugador.inventario = none ∧
    (combate_usar_objeto estadoSinConsumibles).mensaje ≠ "¡No tienes objetos!" := by
  constructor
  · rfl
  · decide

/-- Claim C7 as amended — when the inventory holds no consumable, selecting
Use-Item changes nothing (no item removed, combatants untouched, still the
player's turn, no animation delay started) except that the no-items message
is posted exactly when the inventory is empty; a non-empty inventory
without consumables produces no message. -/
theorem C7_sin_objetos (st : CombateState)
    (h : primerConsumible st.jugador.inventario = none) :
    combate_usar_objeto st =
      (if st.jugador.inventario.isEmpty
       then { st with mensaje := "¡No tienes objetos!" }
       else st) := by
  by_cases he : st.jugador.inventario.isEmpty <;>
    simp [combate_usar_objeto, he, h]

/-- Witness for C7 (amended): with an empty inventory the only effect of
Use-Item is the no-items message. -/
theorem C7_sin_objetos_witness :
    combate_usar_objeto estadoInventarioVacio =
      { estadoInventarioVacio with mensaje := "¡No tienes objetos!" } := by
  have h := C7_sin_objetos estadoInventarioVacio rfl
  simpa using h

/-- Counterexample to C8 as stated: when both combatants are dead at delay
expiry the code declares defeat (it checks the player first), while the
claimed priority order declares victory. -/
theorem C8_contraejemplo :
    (resolverTurno false estadoAmbosMuertos).resultado = some "derrota" ∧
    (resolverTurnoOrdenSpec false estadoAmbosMuertos).resultado = some "victoria" :=
  ⟨rfl, rfl⟩

/-- Claim C8 as amended — the expiry resolver checks Defeat (player dead)
before Victory (enemy dead); on every state where at least one combatant is
alive this coincides exactly with the claimed Victory-first resolver,
including the enemy-turn step (attack computed immediately, message
produced, delay re-entered) and the fallback to the player's turn. -/
theorem C8_resolver (critico : Bool) (st : CombateState)
    (h : st.jugador.vivo = true ∨ st.enemigo.vivo = true) :
    resolverTurno critico st = resolverTurnoOrdenSpec critico st := by
  cases hj : st.jugador.vivo <;> cases he : st.enemigo.vivo
  · rw [hj, he] at h
    rcases h with h | h <;> exact absurd h Bool.false_ne_true
  · simp [resolverTurno, resolverTurnoOrdenSpec, hj, he]
  · simp [resolverTurno, resolverTurnoOrdenSpec, hj, he]
  · simp [resolverTurno, resolverTurnoOrdenSpec, hj, he]

/-- Witness for C8 (amended): with both combatants alive after the player's
action, the code's resolver and the claimed-order resolver agree. -/
theorem C8_resolver_witness :
    resolverTurno false { estadoCombate guerrero lobo with animando := true } =
      resolverTurnoOrdenSpec false { estadoCombate guerrero lobo with animando := true } :=
  C8_resolver false _ (Or.inl rfl)

/-- Helper: `Rat.floor` is the floor of the floor ring structure of the
rationals. -/
theorem rat_floor_eq_floor (q : ℚ) : Rat.floor q = ⌊q⌋ := rfl

/-- Helper: the far wolf's one-tick update only runs its wander timer down. -/
theorem update_loboLejano :
    Enemigo.update 1 drawC9 loboLejano = loboLejanoTick := by
  simp [Enemigo.update, Personaje.update, pyInt, loboLejano, loboLejanoTick,
    mkEnemigo, mkPersonaje, drawC9, rat_floor_eq_floor]
  norm_num

/-- Helper: the near bandit's one-tick update re-draws its wander state and
moves it 50 along x, with its rect still at the pre-move position. -/
theorem update_bandidoCercano :
    Enemigo.update 1 drawC9 bandidoCercano = bandidoCercanoTick := by
  simp [Enemigo.update, Personaje.update, pyInt, bandidoCercano, bandidoCercanoTick,
    mkEnemigo, mkPersonaje, drawC9, rat_floor_eq_floor]
  norm_num

/-- Counterexample to C9 as stated: with two enemies of which only the
second overlaps the player, the second does become current — but the first
does not stay in the roster unchanged: its wander update ran (here its
wander timer dropped from 5 to 4), so the original first enemy is no longer
in the roster. -/
theorem C9_contraejemplo :
    (updateEnemigos 1 drawC9 rectJugador [loboLejano, bandidoCercano]).2 =
      some (Enemigo.update 1 drawC9 bandidoCercano) ∧
    loboLejano ∉ (updateEnemigos 1 drawC9 rectJugador [loboLejano, bandidoCercano]).1 := by
  have hc1 : colliderect rectJugador (Personaje.rect loboLejanoTick.toPersonaje) = false := by
    decide
  have hc2 : colliderect rectJugador (Personaje.rect bandidoCercanoTick.toPersonaje) = true := by
    decide
  have hv1 : loboLejano.vivo = true := rfl
  have hv2 : bandidoCercano.vivo = true := rfl
  have hroster : updateEnemigos 1 drawC9 rectJugador [loboLejano, bandidoCercano] =
      ([loboLejanoTick, bandidoCercanoTick], some bandidoCercanoTick) := by
    simp [updateEnemigos, update_loboLejano, update_bandidoCercano, hc1, hc2, hv1, hv2]
  constructor
  · rw [hroster, update_bandidoCercano]
  · rw [hroster]
    decide

/-- Claim C9 as amended — on an exploration tick a dead enemy at the head
of the roster is removed; a live enemy whose updated box overlaps the
player immediately becomes current, short-circuiting the rest of the tick;
and with two live enemies of which only the second (post-update) overlaps,
the second becomes current while the first stays in the roster as its
updated-for-this-tick self (wander step applied; neither removed nor made
current). -/
theorem C9_encuentro (dt : ℚ) (draw : WanderDraw) (pr : Rect)
    (e : Enemigo) (rest : List Enemigo) (e1 e2 : Enemigo) :
    (e.vivo = false →
      updateEnemigos dt draw pr (e :: rest) = updateEnemigos dt draw pr rest) ∧
    (e.vivo = true →
      colliderect pr (Personaje.rect (Enemigo.update dt draw e).toPersonaje) = true →
      updateEnemigos dt draw pr (e :: rest) =
        (Enemigo.update dt draw e :: rest, some (Enemigo.update dt draw e))) ∧
    (e1.vivo = true → e2.vivo = true →
      colliderect pr (Personaje.rect (Enemigo.update dt draw e1).toPersonaje) = false →
      colliderect pr (Personaje.rect (Enemigo.update dt draw e2).toPersonaje) = true →
      updateEnemigos dt draw pr [e1, e2] =
        ([Enemigo.update dt draw e1, Enemigo.update dt draw e2],
         some (Enemigo.update dt draw e2))) := by
  refine ⟨?_, ?_, ?_⟩
  · intro h
    simp [updateEnemigos, h]
  · intro h hc
    simp [updateEnemigos, h, hc]
  · intro h1 h2 hc1 hc2
    simp [updateEnemigos, h1, h2, hc1, hc2]

/-- Witness for C9 (amended): the concrete two-enemy roster where only the
bandit overlaps — it becomes current and the wolf survives as its updated
self. -/
theorem C9_encuentro_witness :
    updateEnemigos 1 drawC9 rectJugador [loboLejano, bandidoCercano] =
      ([Enemigo.update 1 drawC9 loboLejano, Enemigo.update 1 drawC9 bandidoCercano],
       some (Enemigo.update 1 drawC9 bandidoCercano)) :=
  (C9_encuentro 1 drawC9 rectJugador loboLejano [] loboLejano bandidoCercano).2.2
    rfl rfl (by rw [update_loboLejano]; decide) (by rw [update_bandidoCercano]; decide)

/-- Helper: the item the use-item loop settles on is a consumable. -/
theorem primerConsumible_tipo :
    ∀ {inv : List Objeto} {obj : Objeto},
      primerConsumible inv = some obj → obj.tipo = "consumible" := by
  intro inv
  induction inv with
  | nil => intro obj h; cases h
  | cons o rest ih =>
      intro obj h
      by_cases ho : o.tipo = "consumible"
      · rw [primerConsumible, if_pos ho] at h
        cases h
        exact ho
      · rw [primerConsumible, if_neg ho] at h
        exact ih h

/-- Helper: removing the loop's item by equality (Python `list.remove`)
removes exactly the first consumable position, because every earlier item
has a different category. -/
theorem pyRemove_primerConsumible :
    ∀ {inv : List Objeto} {obj : Objeto},
      primerConsumible inv = some obj →
      pyRemove obj inv = quitarPrimerConsumible inv := by
  intro inv
  induction inv with
  | nil => intro obj h; cases h
  | cons o rest ih =>
      intro obj h
      by_cases ho : o.tipo = "consumible"
      · rw [primerConsumible, if_pos ho] at h
        cases h
        rw [pyRemove, if_pos rfl, quitarPrimerConsumible, if_pos ho]
      · rw [primerConsumible, if_neg ho] at h
        have hne : o ≠ obj := by
          intro he
          exact ho (he ▸ primerConsumible_tipo h)
        rw [pyRemove, if_neg hne, quitarPrimerConsumible, if_neg ho, ih h]

/-- Claim C10 — when Use-Item runs with a consumable available, the first
consumable in insertion order is removed, the message reports the item's
name and modifier, and the animation delay starts, all regardless of
whether `usar` applied; when it did not apply (no healing marker) the item
is still consumed and the player is untouched; the enemy, turn flag and
result are never touched. -/
theorem C10_consumir_objeto (st : CombateState) (obj : Objeto)
    (h : primerConsumible st.jugador.inventario = some obj) :
    (combate_usar_objeto st).jugador.inventario =
      quitarPrimerConsumible st.jugador.inventario ∧
    (combate_usar_objeto st).animando = true ∧
    (combate_usar_objeto st).timer_active = true ∧
    (combate_usar_objeto st).mensaje =
      "Usas " ++ obj.nombre ++ ". HP +" ++ toString obj.modificador ∧
    (combate_usar_objeto st).jugador.toPersonaje = (obj.usar st.jugador.toPersonaje).1 ∧
    ((obj.usar st.jugador.toPersonaje).2 = false →
      (combate_usar_objeto st).jugador.toPersonaje = st.jugador.toPersonaje) ∧
    (combate_usar_objeto st).enemigo = st.enemigo ∧
    (combate_usar_objeto st).turno_jugador = st.turno_jugador ∧
    (combate_usar_objeto st).resultado = st.resultado := by
  have hne : st.jugador.inventario.isEmpty = false := by
    cases hinv : st.jugador.inventario with
    | nil => rw [hinv] at h; cases h
    | cons a l => rfl
  have hrem := pyRemove_primerConsumible h
  refine ⟨?_, ?_, ?_, ?_, ?_, ?_, ?_, ?_, ?_⟩ <;>
    simp [combate_usar_objeto, hne, h, hrem]
  intro happ
  exact usar_no_aplica happ

/-- Witness for C10: the elixir (a consumable with no healing marker) is
the first consumable, so it is consumed — the weapon stays, the message
reports HP +30, the delay starts — yet the player is unchanged. -/
theorem C10_consumir_objeto_witness :
    (combate_usar_objeto estadoConElixir).jugador.inventario = [espada] ∧
    (combate_usar_objeto estadoConElixir).animando = true ∧
    (combate_usar_objeto estadoConElixir).mensaje = "Usas Elixir. HP +30" ∧
    (combate_usar_objeto estadoConElixir).jugador.toPersonaje =
      estadoConElixir.jugador.toPersonaje := by
  have h := C10_consumir_objeto estadoConElixir elixirObj rfl
  refine ⟨?_, h.2.1, ?_, h.2.2.2.2.2.1 (by decide)⟩
  · rw [h.1]
    rfl
  · rw [h.2.2.2.1]
    rfl

end Videojuego
